import Mathlib

/-
  Verification of the unfollow-tracker core (src/main.py, class GitHubTracker).

  The embedding models:
  * the user records returned by the API and their translation into the
    tracker's own record shape (getFollowers, lines 89-94);
  * the paginated fetch loop with its fail-fast error handling
    (getFollowers lines 58-100, getFollowing lines 102-144), driven by an
    environment `env : Nat → Response` giving the response of each page and
    a fuel bound standing for "the loop terminates within fuel pages";
  * the rate-limit check (check_rate_limit, lines 48-56), with time taken
    as integer seconds;
  * the follower diff and the non-mutual diff (lines 212-216, 155-156);
  * the capped history log (updateHistory, lines 180-200), Python's
    slice xs[-n:] modelled as lastSlice;
  * the orchestration checkChanges (lines 202-225) and
    getNonMutualFollowing (lines 146-159) over a tracker state holding the
    two persisted stores in their well-formed shape;
  * the file-level load behaviour of loadPreviousFollowers (lines 166-178)
    and getStats (lines 227-256) over a JSON value model, since those
    functions are defined on raw file contents.
-/

namespace Tracker

/-- A user record as the tracker stores it (keys renamed at lines 89-94). -/
structure User where
  login : String
  id : Nat
  avatarUrl : String
  htmlUrl : String
  deriving DecidableEq, Repr

/-- A user record as the API returns it (fields read at lines 89-94). -/
structure RawUser where
  login : String
  id : Nat
  avatar_url : String
  html_url : String
  deriving DecidableEq, Repr

/-- The field translation applied to every fetched record (lines 89-94). -/
def toUser (u : RawUser) : User :=
  { login := u.login, id := u.id, avatarUrl := u.avatar_url, htmlUrl := u.html_url }

/-- One HTTP response: status code, the two rate-limit headers (none when the
header is absent), the JSON body of a list page, and the raw text. -/
structure Response where
  status : Nat
  rateLimitRemaining : Option Int
  rateLimitReset : Option Int
  body : List RawUser
  text : String

/-- Classification of a failed fetch, read off the branches at lines 73-82:
status 403 reports a rate limit, status 401 an invalid token, anything else a
generic error carrying the status and the response text. -/
inductive ApiError where
  | unauthorized
  | rateLimited
  | other (status : Nat) (body : String)
  deriving DecidableEq, Repr

/-- The branch structure of lines 73-82 (the 403 test comes first). -/
def classifyError (status : Nat) (text : String) : ApiError :=
  if status = 403 then ApiError.rateLimited
  else if status = 401 then ApiError.unauthorized
  else ApiError.other status text

/-- check_rate_limit (lines 48-56): headers default to 0 when absent; on a
remaining count below 10 the sleep duration reset - now + 1 is computed and
slept when positive.  Returns the sleep duration actually slept, if any. -/
def check_rate_limit (resp : Response) (now : Int) : Option Int :=
  let remaining := resp.rateLimitRemaining.getD 0
  let reset := resp.rateLimitReset.getD 0
  if remaining < 10 then
    let sleep_time := reset - now + 1
    if sleep_time > 0 then some sleep_time else none
  else none

/-- One issued page request; perPage is fixed to 100 in the URL (line 68). -/
structure Request where
  page : Nat
  perPage : Nat
  deriving DecidableEq, Repr

/-- The request built for a page by the URL f-string at line 68. -/
def mkRequest (page : Nat) : Request := { page := page, perPage := 100 }

/-- Outcome of a pagination loop: the result (the error branch of lines 73-83
abandons every accumulated record) together with the log of issued requests. -/
structure FetchOutcome where
  result : Except ApiError (List User)
  requests : List Request
  deriving Repr

/-- The while-loop of getFollowers (lines 67-97): request the current page,
abort with a classified error on a non-200 status (returning no records),
stop successfully on an empty page, otherwise accumulate the translated
records and move to the next page.  Fuel bounds the number of iterations;
none means the fuel ran out before the loop finished. -/
def getFollowersAux (env : Nat → Response) :
    Nat → Nat → List User → List Request → Option FetchOutcome
  | 0, _, _, _ => none
  | fuel + 1, page, acc, reqs =>
    let resp := env page
    let reqs' := reqs ++ [mkRequest page]
    if resp.status ≠ 200 then
      some { result := Except.error (classifyError resp.status resp.text), requests := reqs' }
    else if resp.body = [] then
      some { result := Except.ok acc, requests := reqs' }
    else
      getFollowersAux env fuel (page + 1) (acc ++ resp.body.map toUser) reqs'

/-- getFollowers (lines 58-100) with the abort event kept visible. -/
def getFollowersR (env : Nat → Response) (fuel : Nat) : Option FetchOutcome :=
  getFollowersAux env fuel 1 [] []

/-- getFollowers as the caller sees it: the source returns the plain empty
list on any non-success status (line 83). -/
def getFollowers (env : Nat → Response) (fuel : Nat) : Option (List User) :=
  match getFollowersR env fuel with
  | none => none
  | some o =>
    match o.result with
    | Except.error _ => some []
    | Except.ok l => some l

/-- getFollowing (lines 102-144) duplicates the followers pagination loop
verbatim, only the URL path segment differing; the page environment already
stands for the endpoint, so the function coincides with getFollowers. -/
def getFollowing (env : Nat → Response) (fuel : Nat) : Option (List User) :=
  getFollowers env fuel

/-- The diff of checkChanges (lines 212-216): logins of each side are
collected and each list is filtered by absence from the other side's logins,
preserving order.  First component: new followers; second: unfollowers. -/
def diffFollowers (current previous : List User) : List User × List User :=
  let currentUsernames := current.map User.login
  let previousUsernames := previous.map User.login
  (current.filter (fun u => !previousUsernames.contains u.login),
   previous.filter (fun u => !currentUsernames.contains u.login))

/-- Modelled from the spec's words for comparison: the members of `current`
whose login is absent from the set of logins of `previous`, in `current`'s
original order. -/
def specGained (current previous : List User) : List User :=
  current.filter (fun u => decide (¬ ∃ v ∈ previous, v.login = u.login))

/-- The non-mutual diff of getNonMutualFollowing (lines 155-156). -/
def nonMutual (followers following : List User) : List User :=
  let follower_usernames := followers.map User.login
  following.filter (fun u => !follower_usernames.contains u.login)

/-- One timestamped history event (lines 193-194). -/
structure HistoryEntry where
  user : User
  timestamp : String
  deriving DecidableEq, Repr

/-- The history log: two independent capped event sequences (line 46). -/
structure History where
  newFollowers : List HistoryEntry
  unfollowers : List HistoryEntry
  deriving DecidableEq, Repr

/-- The cap applied to each history sequence (line 191). -/
def max_history : Nat := 1000

/-- Python's slice xs[-n:] for n > 0: the last n elements of xs, or all of
xs when it is shorter than n. -/
def lastSlice {α : Type} (n : Nat) (xs : List α) : List α :=
  xs.drop (xs.length - n)

/-- updateHistory (lines 180-200) on an already-loaded log: append one
timestamped entry per user to each sequence, then keep the last max_history
entries of each sequence independently (lines 193-197). -/
def updateHistory (h : History) (newFollowers unfollowers : List User)
    (timestamp : String) : History :=
  let g := h.newFollowers ++ newFollowers.map (fun f => HistoryEntry.mk f timestamp)
  let l := h.unfollowers ++ unfollowers.map (fun f => HistoryEntry.mk f timestamp)
  { newFollowers := lastSlice max_history g, unfollowers := lastSlice max_history l }

/-- One call to updateHistory: the gained and lost users and the timestamp
taken at line 190. -/
structure AppendCall where
  gained : List User
  lost : List User
  timestamp : String
  deriving DecidableEq, Repr

/-- A sequence of updateHistory calls starting from log h0, each call loading
the log the previous call persisted. -/
def runAppends (h0 : History) (calls : List AppendCall) : History :=
  calls.foldl (fun h c => updateHistory h c.gained c.lost c.timestamp) h0

/-- All gained entries a sequence of calls appends, oldest first. -/
def gainedEntries (calls : List AppendCall) : List HistoryEntry :=
  (calls.map (fun c => c.gained.map (fun u => HistoryEntry.mk u c.timestamp))).flatten

/-- All lost entries a sequence of calls appends, oldest first. -/
def lostEntries (calls : List AppendCall) : List HistoryEntry :=
  (calls.map (fun c => c.lost.map (fun u => HistoryEntry.mk u c.timestamp))).flatten

/-- The two persisted stores in their well-formed shape: the snapshot file's
follower list and the history file's log. -/
structure TrackerState where
  followers : List User
  history : History
  deriving DecidableEq, Repr

/-- The dictionary checkChanges returns (lines 221-225). -/
structure ChangeResult where
  newFollowers : List User
  unfollowers : List User
  totalFollowers : Nat
  deriving DecidableEq, Repr

/-- checkChanges (lines 202-225): fetch the current followers (the empty list
when the fetch failed, line 83), load the previous snapshot from the store,
diff (lines 212-216), overwrite the snapshot store (line 218), append to the
history store (line 219) and return the result.  none when the fetch loop
exceeds the fuel. -/
def checkChanges (env : Nat → Response) (fuel : Nat) (timestamp : String)
    (st : TrackerState) : Option (ChangeResult × TrackerState) :=
  match getFollowers env fuel with
  | none => none
  | some currentFollowers =>
    let previousFollowers := st.followers
    let d := diffFollowers currentFollowers previousFollowers
    let st' : TrackerState :=
      { followers := currentFollowers,
        history := updateHistory st.history d.1 d.2 timestamp }
    some ({ newFollowers := d.1, unfollowers := d.2,
            totalFollowers := currentFollowers.length }, st')

/-- getNonMutualFollowing (lines 146-159): fetch both lists and return the
non-mutual diff; the method performs no file operation, so the tracker state
is passed through untouched. -/
def getNonMutualFollowing (envFollowers envFollowing : Nat → Response)
    (fuel : Nat) (st : TrackerState) : Option (List User × TrackerState) :=
  match getFollowers envFollowers fuel with
  | none => none
  | some followers =>
    match getFollowing envFollowing fuel with
    | none => none
    | some following => some (nonMutual followers following, st)

/-- A parsed JSON value, as json.load returns it. -/
inductive JsonVal where
  | jnull
  | jbool (b : Bool)
  | jnum (n : Int)
  | jstr (s : String)
  | jarr (xs : List JsonVal)
  | jobj (fields : List (String × JsonVal))
  deriving Repr

/-- The state of one backing file: absent (opening or os.path.getsize raises
FileNotFoundError), or present with its byte size and the result of JSON
decoding its content (none when json.load raises JSONDecodeError). -/
inductive FileState where
  | absent
  | present (size : Nat) (parsed : Option JsonVal)
  deriving Repr

/-- The Python exceptions the load paths can meet; the source's handlers at
lines 177 and 249 catch only the first two. -/
inductive PyErr where
  | jsonDecodeError
  | fileNotFoundError
  | typeError
  | keyError
  deriving DecidableEq, Repr

/-- loadPreviousFollowers (lines 166-178): an absent file, a zero-size file
and an undecodable file all give the empty list; any decodable content is
returned exactly as json.load produced it. -/
def loadPreviousFollowers (f : FileState) : JsonVal :=
  match f with
  | FileState.absent => JsonVal.jarr []
  | FileState.present size parsed =>
    if size = 0 then JsonVal.jarr []
    else
      match parsed with
      | none => JsonVal.jarr []
      | some v => v

/-- Python subscript v[key]: only a JSON object supports string keys
(KeyError when the key is missing, TypeError on any other value). -/
def jsonIndex (v : JsonVal) (key : String) : Except PyErr JsonVal :=
  match v with
  | JsonVal.jobj fields =>
    match fields.lookup key with
    | some w => Except.ok w
    | none => Except.error PyErr.keyError
  | _ => Except.error PyErr.typeError

/-- Python len(v): defined on JSON arrays, objects and strings only. -/
def jsonLen (v : JsonVal) : Except PyErr Nat :=
  match v with
  | JsonVal.jarr xs => Except.ok xs.length
  | JsonVal.jobj fields => Except.ok fields.length
  | JsonVal.jstr s => Except.ok s.length
  | _ => Except.error PyErr.typeError

/-- Python slice v[-n:]: defined on JSON arrays and strings only. -/
def jsonLast (n : Nat) (v : JsonVal) : Except PyErr JsonVal :=
  match v with
  | JsonVal.jarr xs => Except.ok (JsonVal.jarr (lastSlice n xs))
  | JsonVal.jstr s => Except.ok (JsonVal.jstr (String.mk (lastSlice n s.toList)))
  | _ => Except.error PyErr.typeError

/-- The dictionary getStats returns (lines 242-248 and 250-256). -/
structure Stats where
  totalFollowers : Nat
  totalNewFollowers : Nat
  totalUnfollowers : Nat
  recentNewFollowers : JsonVal
  recentUnfollowers : JsonVal
  deriving Repr

/-- The default returned from the handler at lines 250-256. -/
def defaultStats : Stats :=
  { totalFollowers := 0, totalNewFollowers := 0, totalUnfollowers := 0,
    recentNewFollowers := JsonVal.jarr [], recentUnfollowers := JsonVal.jarr [] }

/-- The empty history dictionary substituted at lines 236-238. -/
def defaultHistoryJson : JsonVal :=
  JsonVal.jobj [("newFollowers", JsonVal.jarr []), ("unfollowers", JsonVal.jarr [])]

/-- The body of the try block of getStats (lines 234-248): open the history
file, decode it when non-empty (lines 235-238), load the snapshot (line 240)
and build the statistics dictionary (lines 242-248), with every subscript and
len able to raise. -/
def getStatsBody (hist snap : FileState) : Except PyErr Stats :=
  match hist with
  | FileState.absent => Except.error PyErr.fileNotFoundError
  | FileState.present size parsed => do
    let history ←
      if size > 0 then
        match parsed with
        | none => Except.error PyErr.jsonDecodeError
        | some v => Except.ok v
      else Except.ok defaultHistoryJson
    let currentFollowers := loadPreviousFollowers snap
    let totalFollowers ← jsonLen currentFollowers
    let nf ← jsonIndex history "newFollowers"
    let totalNewFollowers ← jsonLen nf
    let uf ← jsonIndex history "unfollowers"
    let totalUnfollowers ← jsonLen uf
    let recentNewFollowers ← jsonLast 5 nf
    let recentUnfollowers ← jsonLast 5 uf
    Except.ok { totalFollowers := totalFollowers,
                totalNewFollowers := totalNewFollowers,
                totalUnfollowers := totalUnfollowers,
                recentNewFollowers := recentNewFollowers,
                recentUnfollowers := recentUnfollowers }

/-- getStats (lines 227-256): the handler at line 249 catches exactly
JSONDecodeError and FileNotFoundError, substituting the default statistics;
every other exception propagates to the caller. -/
def getStats (hist snap : FileState) : Except PyErr Stats :=
  match getStatsBody hist snap with
  | Except.error PyErr.jsonDecodeError => Except.ok defaultStats
  | Except.error PyErr.fileNotFoundError => Except.ok defaultStats
  | r => r

/-- The backing-store states the spec's load guarantee is about: absent,
empty, or with content that JSON decoding rejects. -/
def emptyOrCorrupt : FileState → Prop
  | FileState.absent => True
  | FileState.present 0 _ => True
  | FileState.present (_ + 1) parsed => parsed = none

/-! ## Helper lemmas -/

/-- Membership in the collected logins is membership of a user with that
login. -/
lemma contains_map_login (l : List User) (s : String) :
    (l.map User.login).contains s = decide (∃ v ∈ l, v.login = s) := by
  rcases h : (l.map User.login).contains s with _ | _
  · symm
    rw [decide_eq_false_iff_not]
    intro ⟨v, hv, hs⟩
    rw [Bool.eq_false_iff] at h
    exact h (List.contains_iff_exists_mem_beq.mpr ⟨v.login, List.mem_map.mpr ⟨v, hv, rfl⟩, by simp [hs]⟩)
  · symm
    rw [decide_eq_true_iff]
    obtain ⟨s', hs', hbeq⟩ := List.contains_iff_exists_mem_beq.mp h
    obtain ⟨v, hv, rfl⟩ := List.mem_map.mp hs'
    refine ⟨v, hv, ?_⟩
    simp only [beq_iff_eq] at hbeq
    exact hbeq.symm

/-- The filter used by the diff and by nonMutual agrees with the spec's
login-set description. -/
lemma filter_absent_eq_spec (l prev : List User) :
    l.filter (fun u => !(prev.map User.login).contains u.login) = specGained l prev := by
  refine List.filter_congr (fun u _ => ?_)
  rw [contains_map_login]
  rcases h : decide (∃ v ∈ prev, v.login = u.login) with _ | _ <;> simp_all

/-- A list diffed against itself keeps nothing. -/
lemma filter_absent_self (l : List User) :
    l.filter (fun u => !(l.map User.login).contains u.login) = [] := by
  rw [List.filter_eq_nil_iff]
  intro u hu
  simp [contains_map_login]
  exact ⟨u, hu, rfl⟩

/-- lastSlice written through reverse and take. -/
lemma lastSlice_eq (n : Nat) {α : Type} (xs : List α) :
    lastSlice n xs = (List.take n xs.reverse).reverse :=
  List.rtake_eq_reverse_take_reverse xs n

/-- Taking n of an already n-truncated right part changes nothing. -/
lemma take_append_take (n : Nat) {α : Type} (a b : List α) :
    List.take n (a ++ List.take n b) = List.take n (a ++ b) := by
  rw [List.take_append_eq_append_take, List.take_append_eq_append_take, List.take_take]
  congr 2
  omega

/-- Truncating, appending and truncating again is truncating once. -/
lemma lastSlice_append_lastSlice (n : Nat) {α : Type} (xs ys : List α) :
    lastSlice n (lastSlice n xs ++ ys) = lastSlice n (xs ++ ys) := by
  rw [lastSlice_eq, lastSlice_eq, lastSlice_eq, List.reverse_append, List.reverse_reverse,
    List.reverse_append, take_append_take]

/-- The truncation of the appended part survives as a suffix. -/
lemma lastSlice_suffix_append (n : Nat) {α : Type} (xs ys : List α) :
    lastSlice n ys <:+ lastSlice n (xs ++ ys) := by
  rw [lastSlice_eq, lastSlice_eq, List.reverse_append]
  rw [List.reverse_suffix, List.take_append_eq_append_take]
  exact ⟨_, rfl⟩

/-- When the appended part already fills the cap, it is all that is kept. -/
lemma lastSlice_append_of_le (n : Nat) {α : Type} (xs ys : List α) (h : n ≤ ys.length) :
    lastSlice n (xs ++ ys) = lastSlice n ys := by
  rw [lastSlice_eq, lastSlice_eq, List.reverse_append,
    List.take_append_of_le_length (by simpa using h)]

/-- Length of a lastSlice. -/
lemma length_lastSlice (n : Nat) {α : Type} (xs : List α) :
    (lastSlice n xs).length = min xs.length n := by
  rw [lastSlice, List.length_drop]
  omega

/-- The gained sequence updateHistory persists. -/
lemma updateHistory_newFollowers (h : History) (nf uf : List User) (t : String) :
    (updateHistory h nf uf t).newFollowers =
      lastSlice max_history (h.newFollowers ++ nf.map (fun u => HistoryEntry.mk u t)) := by
  simp [updateHistory]

/-- The lost sequence updateHistory persists. -/
lemma updateHistory_unfollowers (h : History) (nf uf : List User) (t : String) :
    (updateHistory h nf uf t).unfollowers =
      lastSlice max_history (h.unfollowers ++ uf.map (fun u => HistoryEntry.mk u t)) := by
  simp [updateHistory]

/-- The entries one call appends to the gained log, peeled off. -/
lemma gainedEntries_cons (c : AppendCall) (cs : List AppendCall) :
    gainedEntries (c :: cs) =
      c.gained.map (fun u => HistoryEntry.mk u c.timestamp) ++ gainedEntries cs := by
  simp [gainedEntries]

/-- The entries one call appends to the lost log, peeled off. -/
lemma lostEntries_cons (c : AppendCall) (cs : List AppendCall) :
    lostEntries (c :: cs) =
      c.lost.map (fun u => HistoryEntry.mk u c.timestamp) ++ lostEntries cs := by
  simp [lostEntries]

/-- runAppends on an empty call list is the starting log. -/
lemma runAppends_nil (h0 : History) : runAppends h0 [] = h0 := rfl

/-- runAppends peels one call off the front. -/
lemma runAppends_step (h0 : History) (c : AppendCall) (l : List AppendCall) :
    runAppends h0 (c :: l) = runAppends (updateHistory h0 c.gained c.lost c.timestamp) l := by
  rw [runAppends, runAppends, List.foldl_cons]

/-- After at least one append, each history sequence is exactly the
cap-truncation of the starting sequence extended by all appended entries. -/
lemma runAppends_cons (cs : List AppendCall) :
    ∀ (h0 : History) (c : AppendCall),
      (runAppends h0 (c :: cs)).newFollowers =
        lastSlice max_history (h0.newFollowers ++ gainedEntries (c :: cs)) ∧
      (runAppends h0 (c :: cs)).unfollowers =
        lastSlice max_history (h0.unfollowers ++ lostEntries (c :: cs)) := by
  induction cs with
  | nil =>
    intro h0 c
    have hg : gainedEntries [c] = c.gained.map (fun u => HistoryEntry.mk u c.timestamp) := by
      rw [gainedEntries_cons]
      simp [gainedEntries]
    have hl : lostEntries [c] = c.lost.map (fun u => HistoryEntry.mk u c.timestamp) := by
      rw [lostEntries_cons]
      simp [lostEntries]
    have hrun : runAppends h0 [c] = updateHistory h0 c.gained c.lost c.timestamp := by
      rw [runAppends_step, runAppends_nil]
    constructor
    · rw [hrun, hg, updateHistory_newFollowers]
    · rw [hrun, hl, updateHistory_unfollowers]
  | cons c' cs' ih =>
    intro h0 c
    obtain ⟨ihg, ihl⟩ := ih (updateHistory h0 c.gained c.lost c.timestamp) c'
    rw [runAppends_step]
    constructor
    · rw [ihg, updateHistory_newFollowers, lastSlice_append_lastSlice, List.append_assoc,
        ← gainedEntries_cons]
    · rw [ihl, updateHistory_unfollowers, lastSlice_append_lastSlice, List.append_assoc,
        ← lostEntries_cons]

/-! ## Concrete fixtures -/

/-- A sample follower. -/
def alice : User := { login := "alice", id := 1, avatarUrl := "a", htmlUrl := "h" }

/-- A response whose status reports an invalid credential. -/
def resp401 : Response :=
  { status := 401, rateLimitRemaining := some 5000, rateLimitReset := some 0,
    body := [], text := "bad credentials" }

/-- An endpoint answering 401 on every page. -/
def env401 : Nat → Response := fun _ => resp401

/-- A tracker state whose persisted snapshot holds alice. -/
def stAlice : TrackerState :=
  { followers := [alice], history := { newFollowers := [], unfollowers := [] } }

/-- The spec example's follower a. -/
def userA : User := { login := "a", id := 0, avatarUrl := "", htmlUrl := "" }

/-- The spec example's followed user b. -/
def userB : User := { login := "b", id := 1, avatarUrl := "", htmlUrl := "" }

/-- A successful response carrying one record. -/
def respOkAlice : Response :=
  { status := 200, rateLimitRemaining := some 5000, rateLimitReset := some 0,
    body := [{ login := "alice", id := 1, avatar_url := "a", html_url := "h" }], text := "" }

/-- A response whose status reports an exhausted rate limit. -/
def resp403 : Response :=
  { status := 403, rateLimitRemaining := some 0, rateLimitReset := some 0,
    body := [], text := "rate limit exceeded" }

/-- An endpoint whose first page succeeds and whose second page fails. -/
def envAbort : Nat → Response := fun i => if i ≤ 1 then respOkAlice else resp403

/-- A successful response whose body is already empty. -/
def respEmptyPage : Response :=
  { status := 200, rateLimitRemaining := some 5000, rateLimitReset := some 0,
    body := [], text := "" }

/-- An endpoint with no records at all. -/
def envEmptyList : Nat → Response := fun _ => respEmptyPage

/-- A tracker state with empty stores. -/
def stEmpty : TrackerState :=
  { followers := [], history := { newFollowers := [], unfollowers := [] } }

/-- A response carrying no rate-limit headers. -/
def respNoHeaders : Response :=
  { status := 200, rateLimitRemaining := none, rateLimitReset := none,
    body := [], text := "" }

/-! ## Claim theorems -/

/-- C3: for every pair of snapshots, the diff's gained component is exactly
the members of current whose login is absent from the logins of previous, in
current's original order, and the lost component is exactly the members of
previous whose login is absent from the logins of current, in previous's
original order; a snapshot diffed against itself yields two empty lists. -/
theorem diffFollowers_matches_spec (current previous : List User) :
    (diffFollowers current previous).1 = specGained current previous ∧
    (diffFollowers current previous).2 = specGained previous current ∧
    diffFollowers current current = ([], []) := by
  refine ⟨filter_absent_eq_spec current previous, filter_absent_eq_spec previous current, ?_⟩
  rw [diffFollowers]
  rw [Prod.mk.injEq]
  exact ⟨filter_absent_self current, filter_absent_self current⟩

/-- C7: check_rate_limit suspends exactly when the remaining-calls counter is
below 10 and the computed duration reset - now + 1 is positive, and then for
exactly that duration; a counter of 10 or more never suspends. -/
theorem check_rate_limit_matches_spec (resp : Response) (now : Int) :
    check_rate_limit resp now =
      if resp.rateLimitRemaining.getD 0 < 10 ∧ 0 < resp.rateLimitReset.getD 0 - now + 1 then
        some (resp.rateLimitReset.getD 0 - now + 1)
      else none := by
  rw [check_rate_limit]
  split_ifs with h1 h2 h3 <;> simp_all

/-- C8: nonMutual returns exactly the members of following whose login is
absent from the login set of followers, in following's original order, and on
the spec's example followers = [a], following = [a, b] it returns [b]. -/
theorem nonMutual_matches_spec (followers following : List User) :
    nonMutual followers following = specGained following followers ∧
    nonMutual [userA] [userA, userB] = [userB] := by
  refine ⟨filter_absent_eq_spec following followers, by decide⟩

/-- C9: getNonMutualFollowing leaves the tracker's persisted snapshot and
history stores unchanged: whatever state it starts from, the state it returns
is that same state. -/
theorem getNonMutualFollowing_readonly (envFollowers envFollowing : Nat → Response)
    (fuel : Nat) (st : TrackerState) (res : List User) (st' : TrackerState)
    (h : getNonMutualFollowing envFollowers envFollowing fuel st = some (res, st')) :
    st' = st := by
  rw [getNonMutualFollowing] at h
  rcases hf : getFollowers envFollowers fuel with _ | followers <;> rw [hf] at h
  · exact absurd h (by simp)
  · rcases hg : getFollowing envFollowing fuel with _ | following <;> rw [hg] at h
    · exact absurd h (by simp)
    · rw [Option.some.injEq, Prod.mk.injEq] at h
      exact h.2.symm

/-- C9 witness: a concrete run of getNonMutualFollowing returning the
unchanged starting state. -/
theorem getNonMutualFollowing_readonly_witness : stEmpty = stEmpty :=
  getNonMutualFollowing_readonly envEmptyList envEmptyList 1 stEmpty [] stEmpty (by decide)

/-- C10: on a response carrying neither rate-limit header, the remaining
counter defaults to 0 and the reset time to 0, and for every current time of
at least 1 the computed sleep 0 - now + 1 is non-positive, so check_rate_limit
does not suspend. -/
theorem check_rate_limit_no_headers (resp : Response) (now : Int)
    (hrem : resp.rateLimitRemaining = none) (hres : resp.rateLimitReset = none)
    (hnow : 1 ≤ now) :
    resp.rateLimitRemaining.getD 0 = 0 ∧ resp.rateLimitReset.getD 0 = 0 ∧
    resp.rateLimitReset.getD 0 - now + 1 ≤ 0 ∧
    check_rate_limit resp now = none := by
  rw [hrem, hres]
  refine ⟨rfl, rfl, by simp; omega, ?_⟩
  rw [check_rate_limit, hrem, hres]
  simp only [Option.getD_none]
  rw [if_pos (by omega), if_neg (by omega)]

/-- C10 witness: a concrete header-free response at time 5 causes no sleep. -/
theorem check_rate_limit_no_headers_witness :
    respNoHeaders.rateLimitRemaining.getD 0 = 0 ∧
    respNoHeaders.rateLimitReset.getD 0 = 0 ∧
    respNoHeaders.rateLimitReset.getD 0 - 5 + 1 ≤ 0 ∧
    check_rate_limit respNoHeaders 5 = none :=
  check_rate_limit_no_headers respNoHeaders 5 rfl rfl (by decide)

/-- C1: the claim that checkChanges after an unauthorized fetch returns empty
gained and lost and leaves the snapshot untouched fails on the code:
getFollowers returns the plain empty list on a 401 (line 83), so with prior
snapshot [alice] checkChanges reports alice as an unfollower, overwrites the
persisted snapshot with the empty list, and appends alice to the unfollower
history. -/
theorem checkChanges_unauthorized_clobbers :
    checkChanges env401 1 "t" stAlice =
      some ({ newFollowers := [], unfollowers := [alice], totalFollowers := 0 },
            { followers := [],
              history := { newFollowers := [],
                           unfollowers := [{ user := alice, timestamp := "t" }] } }) ∧
    stAlice.followers = [alice] := by
  refine ⟨by decide, rfl⟩

/-- If the pages from `page` on succeed with records for k steps and the
next page fails, the loop aborts there with the classified error, keeping no
accumulated record. -/
lemma getFollowersAux_abort (env : Nat → Response) (k : Nat) :
    ∀ (fuel page : Nat) (acc : List User) (reqs : List Request),
      (∀ i, i < k → (env (page + i)).status = 200 ∧ (env (page + i)).body ≠ []) →
      (env (page + k)).status ≠ 200 →
      k < fuel →
      ∃ reqs', getFollowersAux env fuel page acc reqs =
        some { result := Except.error
                 (classifyError (env (page + k)).status (env (page + k)).text),
               requests := reqs' } := by
  induction k with
  | zero =>
    intro fuel page acc reqs _ hfail hfuel
    obtain ⟨f, rfl⟩ : ∃ f, fuel = f + 1 := ⟨fuel - 1, by omega⟩
    rw [Nat.add_zero] at hfail
    refine ⟨reqs ++ [mkRequest page], ?_⟩
    rw [getFollowersAux, if_pos hfail, Nat.add_zero]
  | succ k ih =>
    intro fuel page acc reqs hok hfail hfuel
    obtain ⟨f, rfl⟩ : ∃ f, fuel = f + 1 := ⟨fuel - 1, by omega⟩
    have h0 := hok 0 (by omega)
    rw [Nat.add_zero] at h0
    rw [getFollowersAux, if_neg (by simp [h0.1]), if_neg h0.2]
    have hok' : ∀ i, i < k →
        (env (page + 1 + i)).status = 200 ∧ (env (page + 1 + i)).body ≠ [] := by
      intro i hi
      have := hok (i + 1) (by omega)
      rwa [show page + (i + 1) = page + 1 + i by omega] at this
    have hfail' : (env (page + 1 + k)).status ≠ 200 := by
      rwa [show page + 1 + k = page + (k + 1) by omega]
    obtain ⟨reqs', hr⟩ := ih f (page + 1) (acc ++ (env page).body.map toUser)
      (reqs ++ [mkRequest page]) hok' hfail' (by omega)
    refine ⟨reqs', ?_⟩
    rw [hr, show page + 1 + k = page + (k + 1) by omega]

/-- C2: when the loop reaches a page whose status is not 200 after k pages of
records, the fetch aborts there: the outcome is the classified error, all
accumulated records are discarded (the caller-visible result is the plain
empty list), and the classification maps 401 to Unauthorized, 403 to
RateLimited, and any other status to a generic error carrying the status and
the response body text. -/
theorem fetch_abort_discards_and_classifies (env : Nat → Response) (k fuel : Nat)
    (hok : ∀ i, 1 ≤ i → i ≤ k → (env i).status = 200 ∧ (env i).body ≠ [])
    (hfail : (env (k + 1)).status ≠ 200)
    (hfuel : k < fuel) :
    (∃ reqs, getFollowersR env fuel =
        some { result := Except.error
                 (classifyError (env (k + 1)).status (env (k + 1)).text),
               requests := reqs }) ∧
    getFollowers env fuel = some [] ∧
    ((env (k + 1)).status = 401 →
      classifyError (env (k + 1)).status (env (k + 1)).text = ApiError.unauthorized) ∧
    ((env (k + 1)).status = 403 →
      classifyError (env (k + 1)).status (env (k + 1)).text = ApiError.rateLimited) ∧
    ((env (k + 1)).status ≠ 401 → (env (k + 1)).status ≠ 403 →
      classifyError (env (k + 1)).status (env (k + 1)).text =
        ApiError.other (env (k + 1)).status (env (k + 1)).text) := by
  have hok' : ∀ i, i < k → (env (1 + i)).status = 200 ∧ (env (1 + i)).body ≠ [] := by
    intro i hi
    have := hok (i + 1) (by omega) (by omega)
    rwa [show i + 1 = 1 + i by omega] at this
  have hfail' : (env (1 + k)).status ≠ 200 := by
    rwa [show 1 + k = k + 1 by omega]
  obtain ⟨reqs', hr⟩ := getFollowersAux_abort env k fuel 1 [] [] hok' hfail' hfuel
  rw [show (1 : Nat) + k = k + 1 by omega] at hr
  refine ⟨⟨reqs', hr⟩, ?_, ?_, ?_, ?_⟩
  · rw [getFollowers, getFollowersR] at *
    rw [hr]
  · intro h401
    rw [classifyError, if_neg (by omega), if_pos h401]
  · intro h403
    rw [classifyError, if_pos h403]
  · intro h401 h403
    rw [classifyError, if_neg h403, if_neg h401]

/-- C2 witness: one successful page then a 403 yields an empty caller-visible
result. -/
theorem fetch_abort_discards_and_classifies_witness :
    getFollowers envAbort 2 = some ([] : List User) :=
  (fetch_abort_discards_and_classifies envAbort 1 2
    (fun i h1 h2 => by
      have hi : i = 1 := Nat.le_antisymm h2 h1
      subst hi
      exact ⟨rfl, by decide⟩)
    (by decide) (by omega)).2.1

/-- One hundred raw records, as a full first page. -/
def body100 : List RawUser :=
  (List.range 100).map (fun i =>
    { login := toString i, id := i, avatar_url := "", html_url := "" })

/-- A successful full first page of one hundred records. -/
def respPage100 : Response :=
  { status := 200, rateLimitRemaining := some 5000, rateLimitReset := some 0,
    body := body100, text := "" }

/-- An endpoint whose first page has one hundred records and whose second
page is empty. -/
def envHundred : Nat → Response := fun i => if i ≤ 1 then respPage100 else respEmptyPage

/-- C6: when page 1 returns 100 records and page 2 an empty body, the fetch
issues exactly the two requests for pages 1 and 2 with the fixed page size
100, terminates successfully, and returns the 100 translated records of
page 1. -/
theorem fetch_two_pages (env : Nat → Response) (fuel : Nat)
    (h1s : (env 1).status = 200) (h1b : (env 1).body.length = 100)
    (h2s : (env 2).status = 200) (h2b : (env 2).body = [])
    (hfuel : 2 ≤ fuel) :
    getFollowersR env fuel =
      some { result := Except.ok ((env 1).body.map toUser),
             requests := [mkRequest 1, mkRequest 2] } ∧
    ((env 1).body.map toUser).length = 100 ∧
    mkRequest 1 = { page := 1, perPage := 100 } ∧
    mkRequest 2 = { page := 2, perPage := 100 } := by
  obtain ⟨f, rfl⟩ : ∃ f, fuel = f + 2 := ⟨fuel - 2, by omega⟩
  have h1ne : (env 1).body ≠ [] := by
    intro hnil
    rw [hnil] at h1b
    simp at h1b
  refine ⟨?_, by simp [h1b], rfl, rfl⟩
  rw [getFollowersR, show f + 2 = (f + 1) + 1 by omega, getFollowersAux,
    if_neg (by simp [h1s]), if_neg h1ne, getFollowersAux,
    if_neg (by simp [h2s]), if_pos h2b]
  simp

/-- C6 witness: the concrete two-page endpoint yields a 100-element
snapshot. -/
theorem fetch_two_pages_witness :
    ((envHundred 1).body.map toUser).length = 100 :=
  (fetch_two_pages envHundred 2 rfl (by decide) rfl rfl (by omega)).2.1

/-- C4: starting from any history log, after any non-empty sequence of
append calls each sequence equals the cap-truncation (most recent
max_history = 1000 entries, oldest evicted first) of the starting sequence
extended by all appended entries; in particular the most recent
min(total appended, 1000) appended entries survive as a suffix, whose length
is exactly that minimum, and once the appended entries alone reach the cap
the sequence is exactly the 1000 most recently appended entries — each
sequence truncated independently. -/
theorem history_cap_fifo (h0 : History) (c : AppendCall) (cs : List AppendCall) :
    (runAppends h0 (c :: cs)).newFollowers =
        lastSlice max_history (h0.newFollowers ++ gainedEntries (c :: cs)) ∧
    (runAppends h0 (c :: cs)).unfollowers =
        lastSlice max_history (h0.unfollowers ++ lostEntries (c :: cs)) ∧
    lastSlice max_history (gainedEntries (c :: cs)) <:+ (runAppends h0 (c :: cs)).newFollowers ∧
    lastSlice max_history (lostEntries (c :: cs)) <:+ (runAppends h0 (c :: cs)).unfollowers ∧
    (lastSlice max_history (gainedEntries (c :: cs))).length
        = min (gainedEntries (c :: cs)).length max_history ∧
    (lastSlice max_history (lostEntries (c :: cs))).length
        = min (lostEntries (c :: cs)).length max_history ∧
    (max_history ≤ (gainedEntries (c :: cs)).length →
      (runAppends h0 (c :: cs)).newFollowers = lastSlice max_history (gainedEntries (c :: cs))) ∧
    (max_history ≤ (lostEntries (c :: cs)).length →
      (runAppends h0 (c :: cs)).unfollowers = lastSlice max_history (lostEntries (c :: cs))) := by
  obtain ⟨hg, hl⟩ := runAppends_cons cs h0 c
  refine ⟨hg, hl, ?_, ?_, length_lastSlice _ _, length_lastSlice _ _, ?_, ?_⟩
  · rw [hg]
    exact lastSlice_suffix_append _ _ _
  · rw [hl]
    exact lastSlice_suffix_append _ _ _
  · intro hlen
    rw [hg, lastSlice_append_of_le _ _ _ hlen]
  · intro hlen
    rw [hl, lastSlice_append_of_le _ _ _ hlen]

/-- C4 witness: a single append of alice to the empty log. -/
theorem history_cap_fifo_witness :
    (runAppends { newFollowers := [], unfollowers := [] }
        [{ gained := [alice], lost := [], timestamp := "t" }]).newFollowers =
      lastSlice max_history
        (([] : List HistoryEntry) ++
          gainedEntries [{ gained := [alice], lost := [], timestamp := "t" }]) :=
  (history_cap_fifo { newFollowers := [], unfollowers := [] }
    { gained := [alice], lost := [], timestamp := "t" } []).1

/-- Bind on a successful Except step. -/
lemma except_bind_ok {ε α β : Type} (a : α) (f : α → Except ε β) :
    (Except.ok (ε := ε) a >>= f) = f a := rfl

/-- Bind on a failed Except step. -/
lemma except_bind_error {ε α β : Type} (e : ε) (f : α → Except ε β) :
    (Except.error (α := α) e >>= f) = Except.error e := rfl

/-- C5 counterexample: content that decodes as valid JSON of the wrong shape
is not recovered into the empty defaults: a snapshot file holding the JSON
number 42 loads as 42, not as the empty sequence, and a history file holding
the JSON list [] makes getStats raise a TypeError to the caller instead of
yielding empty defaults. -/
theorem load_invalid_content_counterexample :
    loadPreviousFollowers (FileState.present 2 (some (JsonVal.jnum 42))) = JsonVal.jnum 42 ∧
    loadPreviousFollowers (FileState.present 2 (some (JsonVal.jnum 42))) ≠ JsonVal.jarr [] ∧
    getStats (FileState.present 2 (some (JsonVal.jarr []))) FileState.absent =
      Except.error PyErr.typeError := by
  refine ⟨rfl, fun h => ?_, rfl⟩
  exact JsonVal.noConfusion h

/-- C5 amended: for every backing-store state that is absent, empty, or whose
content fails JSON decoding, loading the snapshot yields the empty sequence,
loading the history yields the all-empty statistics, and neither load raises;
content that decodes as JSON of an unexpected shape is instead returned as-is
by the snapshot load and can make the history load raise. -/
theorem load_empty_or_corrupt_defaults (hist snap : FileState)
    (hh : emptyOrCorrupt hist) (hs : emptyOrCorrupt snap) :
    loadPreviousFollowers snap = JsonVal.jarr [] ∧
    getStats hist snap = Except.ok defaultStats := by
  have hload : ∀ f : FileState, emptyOrCorrupt f →
      loadPreviousFollowers f = JsonVal.jarr [] := by
    intro f hf
    match f with
    | FileState.absent => rfl
    | FileState.present 0 p => rfl
    | FileState.present (n + 1) p =>
      have hp : p = none := hf
      subst hp
      rfl
  refine ⟨hload snap hs, ?_⟩
  have hsnap := hload snap hs
  match hist with
  | FileState.absent => rfl
  | FileState.present 0 p =>
    have hbody : getStatsBody (FileState.present 0 p) snap = Except.ok defaultStats := by
      simp [getStatsBody, hsnap, jsonLen, jsonIndex, jsonLast, defaultHistoryJson,
        defaultStats, lastSlice, except_bind_ok, except_bind_error, List.lookup]
    rw [getStats, hbody]
  | FileState.present (n + 1) p =>
    have hp : p = none := hh
    subst hp
    have hbody : getStatsBody (FileState.present (n + 1) none) snap =
        Except.error PyErr.jsonDecodeError := by
      simp [getStatsBody, except_bind_error]
    rw [getStats, hbody]

/-- C5 witness: both stores absent give the empty snapshot and the default
statistics. -/
theorem load_empty_or_corrupt_defaults_witness :
    loadPreviousFollowers FileState.absent = JsonVal.jarr [] ∧
    getStats FileState.absent FileState.absent = Except.ok defaultStats :=
  load_empty_or_corrupt_defaults FileState.absent FileState.absent (by trivial) (by trivial)

end Tracker
